import Mathlib

/-!
Verification of the worklenz smart-chat query pipeline.

The definitions below are shallow embeddings of the TypeScript sources:
  - `src/worklenz-backend/src/utils/sqlValidator.ts` (final revision, the one
    with `IN`-list support and a team-id list, a.k.a. `src/unnamed/part_006`),
  - `src/worklenz-backend/src/controllers/smart-chat/smart-chat-controller.ts`
    (the revision with intent classification),
  - `src/worklenz-backend/src/controllers/smart-chat/openai-service.ts`,
  - `src/worklenz-backend/src/controllers/smart-chat/smart-chat-controller-base.ts`.

External effects (the OpenAI client, the database) are modelled as oracle
parameters; tokenization is modelled at token granularity (a message body is
its token list, so `encode`/`decode` are the identity and a token count is a
list length).
-/

namespace Worklenz

/-! ## The node-sql-parser AST fragment used by `sqlValidator.ts`

`parser.astify` (the external `node-sql-parser` package) turns a SQL string
into a statement list.  We embed the shapes the validator inspects:
each WHERE node has a `type` (`binary_expr`, `column_ref`, `string`,
`number`, `expr_list`, or something else), binary nodes have `operator`,
`left`, `right`; each FROM-array entry is either a direct table reference
(`{ table: "...", join?: "INNER JOIN" }` — joined tables appear as their own
entries of the `from` array carrying a join-type string) or a subquery entry
(`{ expr: { ast: ... }, as: "..." }`, whose `table` field is absent). -/

inductive SqlExpr where
  | binaryExpr (operator : String) (left right : SqlExpr)
  | columnRef (column : String)
  | stringLit (value : String)
  | numberLit (value : Int)
  | exprList (value : List SqlExpr)
  | otherExpr

mutual
inductive SqlStatement where
  /-- a statement whose `type` is `"select"`, with its `from` array and
      optional `where` tree -/
  | select (fromList : List SqlFromEntry) (whereClause : Option SqlExpr)
  /-- a statement of any other `type` (insert, update, drop, ...) -/
  | other (kind : String)

inductive SqlFromEntry where
  | tableRef (table : String) (joinType : Option String)
  | subquery (stmt : SqlStatement)
end

def SqlStatement.whereClause : SqlStatement → Option SqlExpr
  | .select _ w => w
  | .other _ => none

/-- The fixed allow-list from `sqlValidator.ts`. -/
def ALLOWED_TABLES : List String :=
  ["task_updates", "team_member_info_view", "countries", "project_comment_mentions",
   "project_logs", "task_comment_attachments", "task_status_categories_backup",
   "task_labels_view", "tasks_with_status_view", "task_dependencies", "project_comments",
   "project_member_allocations", "timezones", "task_comment_reactions", "task_labels",
   "tasks_assignees", "organizations", "projects", "teams", "job_titles", "task_comments",
   "task_activity_logs", "task_phase", "task_attachments", "email_invitations", "task_work_log",
   "team_members", "tasks", "task_comment_contents", "task_templates_tasks", "project_access_levels",
   "task_timers", "task_statuses_backup", "project_phases", "users", "project_members",
   "team_labels", "task_priorities", "task_comment_mentions", "roles", "task_statuses",
   "project_categories"]

/-- `extractTables` (sqlValidator.ts): collects `fromEntry.table` for every
entry of the `from` array.  The source also runs
`for (const joinEntry of fromEntry.join) if (joinEntry.table) ...`, but on the
parser's AST `fromEntry.join` is the join-type *string*; iterating it yields
characters, which have no `table` field, so that inner loop never pushes a
table (joined tables are already their own `from` entries).  Subquery entries
have no `table` field and contribute nothing. -/
def extractTables : SqlStatement → List String
  | .select fromList _ =>
      fromList.filterMap (fun e =>
        match e with
        | .tableRef t _ => some t
        | .subquery _ => none)
  | .other _ => []

/-- The lowercase conversion `operator.toLowerCase()` (ASCII, as used by the
source on SQL operator tokens). -/
def jsToLower (s : String) : String := String.mk (s.toList.map Char.toLower)

/-- `hasValidTeamIdFilter` on a non-null WHERE node (sqlValidator.ts, final
revision): an equality `team_id = '<authorized id>'`, an
`team_id IN (...)` containing an authorized id, and otherwise the disjunction
of the recursive checks on `left` and `right` — for `AND` *and* `OR` nodes
alike. -/
def hasValidTeamIdFilterExpr : SqlExpr → List String → Bool
  | .binaryExpr operator left right, allowedTeamIds =>
      (match left, right with
       | .columnRef c, .stringLit v =>
           c = "team_id" && operator = "=" && allowedTeamIds.contains v
       | _, _ => false)
      ||
      (match left, right with
       | .columnRef c, .exprList vs =>
           c = "team_id" && jsToLower operator = "in" &&
             (vs.filterMap (fun v =>
                match v with
                | .stringLit s => some s
                | _ => none)).any (fun val => allowedTeamIds.contains val)
       | _, _ => false)
      || hasValidTeamIdFilterExpr left allowedTeamIds
      || hasValidTeamIdFilterExpr right allowedTeamIds
  | _, _ => false

/-- `hasValidTeamIdFilter` including the `if (!where) return false` guard. -/
def hasValidTeamIdFilter (whereClause : Option SqlExpr) (allowedTeamIds : List String) : Bool :=
  match whereClause with
  | none => false
  | some w => hasValidTeamIdFilterExpr w allowedTeamIds

/-- The per-statement body of `validateSqlQuery`'s `for` loop: only SELECT,
then each extracted table against the allow-list (first offender wins), then
the team-id filter. -/
def validateStatement (statement : SqlStatement) (allowedTeamIds : List String) :
    Except String Unit :=
  match statement with
  | .other _ => .error "Only SELECT queries are allowed."
  | .select _ whereClause =>
      match (extractTables statement).find? (fun tbl => !(ALLOWED_TABLES.contains tbl)) with
      | some tbl => .error ("Access to table " ++ "'" ++ tbl ++ "'" ++ " is not allowed.")
      | none =>
          if !(hasValidTeamIdFilter whereClause allowedTeamIds) then
            .error ("Query must filter results by team_id(s): "
              ++ String.intercalate ", " allowedTeamIds ++ ".")
          else .ok ()

/-- `validateSqlQuery` (sqlValidator.ts, final revision), after
`parser.astify` has produced the statement list and the
`string | string[]` team-id argument has been normalized to a list: every
statement of the list is validated in order, the first failure throwing. -/
def validateSqlQuery (statements : List SqlStatement) (requiredTeamIds : List String) :
    Except String Unit :=
  match statements with
  | [] => .ok ()
  | s :: rest =>
      match validateStatement s requiredTeamIds with
      | .ok () => validateSqlQuery rest requiredTeamIds
      | .error e => .error e

/-! ## A small JS-regex evaluator

The controller and the suggestion parser apply a handful of fixed JavaScript
regexes.  We embed exactly the features those patterns use: literals
(optionally case-insensitive) and repeated character classes with greedy or
lazy repetition and optional capture, with full leftmost-then-preference
backtracking, matching the JS engine on these backreference-free patterns. -/

/-- JS `\s` (the ASCII part, which is all the sources ever feed it). -/
def isWsChar (c : Char) : Bool :=
  c = ' ' || c = '\t' || c = '\n' || c = '\r' || c = '\x0b' || c = '\x0c'

/-- JS `\w`. -/
def isWordChar (c : Char) : Bool := c.isAlphanum || c = '_'

/-- JS `[\w.]`. -/
def isWordDotChar (c : Char) : Bool := isWordChar c || c = '.'

/-- JS `.` without the `s` flag (no line terminators). -/
def isDotChar (c : Char) : Bool := c != '\n' && c != '\r'

/-- JS `.` with the `s` flag. -/
def isAnyChar (_ : Char) : Bool := true

inductive Pat where
  /-- a literal, case-insensitive when `ci` -/
  | lit (s : List Char) (ci : Bool)
  /-- a repeated character class: `+` when `atLeastOne`, else `*`;
      greedy (`\s*`, `.+`) or lazy (`.+?`); capturing when `capture` -/
  | many (cls : Char → Bool) (atLeastOne : Bool) (greedy : Bool) (capture : Bool)

/-- Match a literal at the head of the input, returning the rest. -/
def litMatch (ci : Bool) : List Char → List Char → Option (List Char)
  | [], cs => some cs
  | _ :: _, [] => none
  | p :: ps, c :: cs =>
      if (if ci then p.toLower = c.toLower else p = c) then litMatch ci ps cs else none

/-- Repetition with backtracking: consume a (possibly empty) run of `cls`
characters and hand the rest to the continuation, preferring the longest run
when `greedy` and the shortest otherwise.  Returns the consumed run, and the
continuation's captures and leftover. -/
def goMany (cls : Char → Bool) (greedy : Bool)
    (cont : List Char → Option (List (List Char) × List Char)) :
    List Char → Option (List Char × (List (List Char) × List Char))
  | [] => (cont []).map (fun r => ([], r))
  | c :: rest =>
      let here := (cont (c :: rest)).map (fun r => (([] : List Char), r))
      let deeper :=
        if cls c then (goMany cls greedy cont rest).map (fun r => (c :: r.1, r.2))
        else none
      if greedy then
        match deeper with
        | some r => some r
        | none => here
      else
        match here with
        | some r => some r
        | none => deeper

/-- Match a pattern list at the start of the input, returning the captures in
order and the leftover input. -/
def matchPats : List Pat → List Char → Option (List (List Char) × List Char)
  | [], cs => some ([], cs)
  | .lit s ci :: ps, cs =>
      match litMatch ci s cs with
      | some rest => matchPats ps rest
      | none => none
  | .many cls one greedy cap :: ps, cs =>
      let outcome :=
        if one then
          match cs with
          | [] => none
          | c :: rest =>
              if cls c then (goMany cls greedy (matchPats ps) rest).map (fun r => (c :: r.1, r.2))
              else none
        else goMany cls greedy (matchPats ps) cs
      outcome.map (fun r => ((if cap then [r.1] else []) ++ r.2.1, r.2.2))

/-- Leftmost search: try the pattern at each start position in turn,
returning the match's start index, its length, and its captures. -/
def regexSearchAux (pats : List Pat) : List Char → Nat → Option (Nat × Nat × List (List Char))
  | cs, idx =>
      match matchPats pats cs with
      | some (caps, rest) => some (idx, cs.length - rest.length, caps)
      | none =>
          match cs with
          | [] => none
          | _ :: tail => regexSearchAux pats tail (idx + 1)

def regexSearch (pats : List Pat) (s : String) : Option (Nat × Nat × List (List Char)) :=
  regexSearchAux pats s.toList 0

/-- `RegExp.prototype.test`. -/
def testPat (pats : List Pat) (s : String) : Bool := (regexSearch pats s).isSome

/-- JS `String.prototype.trim` (ASCII whitespace). -/
def jsTrim (s : String) : String :=
  String.mk (((s.toList.dropWhile isWsChar).reverse.dropWhile isWsChar).reverse)

/-! ## `smart-chat-controller.ts`: `injectTeamIdFilter` and the
`getChatInfo` execution gate (STEP 4 "Inject team_id filter" and STEP 5
"Execute SQL"). -/

/-- `/where\s+.*team_id\s*=/`, applied to the lowercased query. -/
def whereTeamIdEqPat : List Pat :=
  [.lit "where".toList false, .many isWsChar true true false,
   .many isDotChar false true false, .lit "team_id".toList false,
   .many isWsChar false true false, .lit "=".toList false]

/-- `/select\s+/`, applied to the lowercased query. -/
def selectWsPat : List Pat := [.lit "select".toList false, .many isWsChar true true false]

/-- `/from\s+/`, applied to the lowercased query. -/
def fromWsPat : List Pat := [.lit "from".toList false, .many isWsChar true true false]

/-- `/join\s+projects\s+(\w+)/i`. -/
def joinProjectsPat : List Pat :=
  [.lit "join".toList true, .many isWsChar true true false,
   .lit "projects".toList true, .many isWsChar true true false,
   .many isWordChar true true true]

/-- `/from\s+projects\s+(\w+)/i`. -/
def fromProjectsPat : List Pat :=
  [.lit "from".toList true, .many isWsChar true true false,
   .lit "projects".toList true, .many isWsChar true true false,
   .many isWordChar true true true]

/-- `/where\s+/i`. -/
def whereWsPat : List Pat := [.lit "where".toList true, .many isWsChar true true false]

/-- `/from\s+[\w.]+\s+\w+/i`. -/
def fromTableAliasPat : List Pat :=
  [.lit "from".toList true, .many isWsChar true true false,
   .many isWordDotChar true true false, .many isWsChar true true false,
   .many isWordChar true true false]

/-- `injectTeamIdFilter`'s alias lookup:
`/join\s+projects\s+(\w+)/i.exec(sqlQuery) || /from\s+projects\s+(\w+)/i.exec(sqlQuery)`. -/
def findProjectsAlias (sqlQuery : String) : Option String :=
  match regexSearch joinProjectsPat sqlQuery with
  | some (_, _, [aliasName]) => some (String.mk aliasName)
  | _ =>
      match regexSearch fromProjectsPat sqlQuery with
      | some (_, _, [aliasName]) => some (String.mk aliasName)
      | _ => none

/-- `injectTeamIdFilter(sqlQuery, teamId)` (smart-chat-controller.ts): when no
`projects` alias is found the query is returned **unchanged** (after a
`console.warn`); otherwise the `team_id` condition is spliced in after the
first `WHERE`, after the first `FROM <table> <alias>`, or at the end. -/
def injectTeamIdFilter (sqlQuery teamId : String) : String :=
  match findProjectsAlias sqlQuery with
  | none => sqlQuery
  | some aliasName =>
      match regexSearch whereWsPat sqlQuery with
      | some (start, len, _) =>
          String.mk (sqlQuery.toList.take (start + len))
            ++ " " ++ aliasName ++ ".team_id = '" ++ teamId ++ "' AND "
            ++ String.mk (sqlQuery.toList.drop (start + len))
      | none =>
          match regexSearch fromTableAliasPat sqlQuery with
          | some (start, len, _) =>
              String.mk (sqlQuery.toList.take (start + len))
                ++ " WHERE " ++ aliasName ++ ".team_id = '" ++ teamId ++ "'"
                ++ String.mk (sqlQuery.toList.drop (start + len))
          | none => sqlQuery ++ " WHERE " ++ aliasName ++ ".team_id = '" ++ teamId ++ "'"

/-- Steps 4–5 of `getChatInfo`: the SQL string that is handed to `db.query`.
`sqlQuery = queryResponseObj.query.trim()`; if the lowercased query has no
`team_id =` after a `WHERE` then, when it looks like a `SELECT ... FROM ...`,
`injectTeamIdFilter` is attempted (which may return it unchanged), and
otherwise injection is skipped with a warning.  Execution then proceeds
unconditionally — `validateSqlQuery` is never consulted on this path. -/
def getChatInfoExecutedSql (generatedQuery teamId : String) : String :=
  let sqlQuery := jsTrim generatedQuery
  let lowerQuery := jsToLower sqlQuery
  if !(testPat whereTeamIdEqPat lowerQuery) then
    if testPat selectWsPat lowerQuery && testPat fromWsPat lowerQuery then
      injectTeamIdFilter sqlQuery teamId
    else sqlQuery
  else sqlQuery

/-! ## `openai-service.ts`: token counting and history trimming

A message body is modelled at token granularity: the `tiktoken` encoder maps
a string to its token list and the decoder maps it back, so here a string
content *is* its token list and `encoder.encode(s).length` is `s.length`. -/

inductive MsgContent where
  /-- `typeof msg.content === "string"` -/
  | str (tokens : List Nat)
  /-- `Array.isArray(msg.content)`: parts, `some` for text parts
      (`isTextPart`), `none` for others -/
  | parts (ps : List (Option (List Nat)))

structure ChatMessage where
  role : String
  content : MsgContent

/-- Tokens contributed by a message body (text parts only, like the source's
`isTextPart` filter). -/
def contentTokens : MsgContent → Nat
  | .str t => t.length
  | .parts ps => ps.foldl (fun a p => a + (p.map List.length).getD 0) 0

/-- The 4-token per-message overhead plus the body. -/
def msgTokenCount (m : ChatMessage) : Nat := 4 + contentTokens m.content

/-- `countTokens`: per-message costs plus 2 priming tokens. -/
def countTokens (messages : List ChatMessage) : Nat :=
  messages.foldl (fun acc m => acc + msgTokenCount m) 0 + 2

/-- JS `Array.prototype.slice(0, e)`: a negative end counts from the end. -/
def jsSliceToEnd (l : List Nat) (e : Int) : List Nat :=
  if e < 0 then l.take (l.length - (-e).toNat) else l.take e.toNat

/-- `truncateTextToFitTokens`: keep the first `maxTokens` tokens (note the
source computes `maxTokens - 4`, which JS lets go negative). -/
def truncateTextToFitTokens (text : List Nat) (maxTokens : Int) : List Nat :=
  if (text.length : Int) ≤ maxTokens then text else jsSliceToEnd text maxTokens

/-- The handling of the last message in `trimMessagesToFitTokenLimit`:
string bodies are truncated when `4 + length` exceeds `maxTokens`; part
arrays are never truncated. -/
def processLastMessage (m : ChatMessage) (maxTokens : Nat) : ChatMessage :=
  match m.content with
  | .str t =>
      if 4 + t.length > maxTokens then
        { m with content := .str (truncateTextToFitTokens t ((maxTokens : Int) - 4)) }
      else m
  | .parts _ => m

/-- The `for (let i = messages.length - 2; i >= 0; i--)` loop: walk the
earlier messages newest-first (the list here is already reversed), adding
each while the running total stays within `maxTokens`, stopping at the first
that would exceed it. -/
def trimEarlier (maxTokens : Nat) : List ChatMessage → Nat → List ChatMessage
  | [], _ => []
  | m :: rest, total =>
      let t := msgTokenCount m
      if total + t > maxTokens then []
      else m :: trimEarlier maxTokens rest (total + t)

/-- `trimMessagesToFitTokenLimit`: keep the (possibly truncated) last
message, then earlier messages newest-to-oldest within budget, and reverse
into chronological order. -/
def trimMessagesToFitTokenLimit (messages : List ChatMessage) (maxTokens : Nat) :
    List ChatMessage :=
  match messages.getLast? with
  | none => []
  | some last =>
      let lastMessage := processLastMessage last maxTokens
      let totalTokens := 2 + msgTokenCount lastMessage
      let earlier := trimEarlier maxTokens messages.dropLast.reverse totalTokens
      (lastMessage :: earlier).reverse

def MAX_TOKENS : Nat := 4096
def DEFAULT_RESPONSE_TOKENS : Nat := 1000

/-- The outcome the provider returns for one invocation attempt; invocations
are external I/O, indexed here by an attempt-number oracle. -/
inductive AttemptResult where
  | success (content : String)
  | failure (message : String)

/-- `createChatCompletion`: trims to `MAX_TOKENS - maxResponseTokens`, fails
if nothing is left, then performs a **single** provider call with no
try/catch — a provider failure propagates as-is. -/
def createChatCompletion (attempts : Nat → AttemptResult) (messages : List ChatMessage)
    (maxResponseTokens : Nat) : Except String String :=
  let maxInputTokens := MAX_TOKENS - maxResponseTokens
  let trimmedMessages := trimMessagesToFitTokenLimit messages maxInputTokens
  if trimmedMessages.length = 0 then
    .error "No valid messages after trimming for token limit."
  else
    match attempts 0 with
    | .success content => .ok content
    | .failure message => .error message

/-- `getOpenAiResponse`: a **single** provider call inside try/catch; any
failure is logged and rethrown as a fixed generic error. -/
def getOpenAiResponse (attempts : Nat → AttemptResult) : Except String String :=
  match attempts 0 with
  | .success content => .ok content
  | .failure _ => .error "Failed to get response from OpenAI."

/-! ## `openai-service.ts`: follow-up suggestions and intent classification -/

/-- `/1\.\s*(.+?)\s*2\.\s*(.+)/s`. -/
def suggestionsPat : List Pat :=
  [.lit "1.".toList false, .many isWsChar false true false,
   .many isAnyChar true false true, .many isWsChar false true false,
   .lit "2.".toList false, .many isWsChar false true false,
   .many isAnyChar true true true]

def followUpFallback : List String :=
  ["Can you elaborate?", "What else should I know about this?"]

/-- `generateFollowUpSuggestions`: the provider reply (or its failure) in,
the two-element suggestion list out.  A matching `1. ... 2. ...` reply yields
the two trimmed capture groups; a non-matching reply or a thrown provider
error yields the fixed fallback pair. -/
def generateFollowUpSuggestions (reply : Except String String) : List String :=
  match reply with
  | .error _ => followUpFallback
  | .ok content =>
      match regexSearch suggestionsPat content with
      | some (_, _, [g1, g2]) => [jsTrim (String.mk g1), jsTrim (String.mk g2)]
      | _ => followUpFallback

/-- `classifyUserIntent`: the classifier reply in (`.ok none` models a null
`message.content`, `.error` a thrown provider error).  The trimmed,
lowercased reply is returned when it is one of the four intents, and
`"other"` otherwise or on error. -/
def classifyUserIntent (completionContent : Except String (Option String)) : String :=
  match completionContent with
  | .error _ => "other"
  | .ok messageContent =>
      let content :=
        match messageContent with
        | some mc => jsToLower (jsTrim mc)
        | none => ""
      if ["data_query", "chit_chat", "help", "other"].contains content then content
      else "other"

/-! ## `smart-chat-controller.ts`: the intent gate of `getChatInfo` -/

inductive ChatTurnOutcome where
  /-- the canned early response for non-data-query intents -/
  | canned (answer : String) (suggestions : List String)
  /-- the turn proceeds to schema fetch and SQL generation -/
  | proceedToSql
deriving DecidableEq

/-- The `fallback` record lookup: keys `chit_chat`, `general_request`,
`unknown`; any other intent maps to the `unknown` message. -/
def intentFallbackAnswer (intent : String) : String :=
  if intent = "chit_chat" then
    "I'm here to assist with project data. Try asking about tasks, team members, or deadlines."
  else if intent = "general_request" then
    "Try asking about tasks, projects, or your team. For example: 'Show all tasks assigned to John'."
  else
    "I couldn't understand that clearly. Please ask something about your tasks, projects, or team."

/-- Step 1 of `getChatInfo`: any intent other than `"data_query"` returns the
canned answer and fixed suggestions immediately, before the schema is read or
any SQL is generated. -/
def getChatInfoIntentStep (intent : String) : ChatTurnOutcome :=
  if intent ≠ "data_query" then
    .canned (intentFallbackAnswer intent)
      ["Show overdue tasks", "List my team", "Project status update"]
  else .proceedToSql

/-! ## `smart-chat-controller-base.ts`: validation-failure summary and
chunked answer synthesis -/

/-- `getQueryData`'s validation step: the summary returned to the caller when
`validateSqlQuery` throws is the template with the validator's raw message
interpolated (`Query validation failed: ${validationError.message}`); `none`
when validation passes. -/
def getQueryDataValidationSummary (statements : List SqlStatement) (teamId : String) :
    Option String :=
  match validateSqlQuery statements [teamId] with
  | .ok _ => none
  | .error m => some ("Query validation failed: " ++ m)

/-- `chunkArray(arr, size)`:
`Array.from({length: Math.ceil(n/size)}, (_, i) => arr.slice(i*size, (i+1)*size))`
(for `size > 0`, `Math.ceil(n/size) = (n + size - 1) / size` in `Nat`). -/
def chunkArray {α : Type} (arr : List α) (size : Nat) : List (List α) :=
  (List.range ((arr.length + size - 1) / size)).map
    (fun i => (arr.drop (i * size)).take size)

def MAX_ITEMS_PER_CHUNK : Nat := 10

def noDataMessage : String :=
  "No matching data found. Please try refining your question or parameters."

/-- `getAnswerFromQueryResult`: empty results return the fixed message; a
non-empty result list is split into 10-row chunks, each sent to the model
(one call per chunk, modelled by `responder`), and the per-chunk responses
are joined with blank lines in chunk order. -/
def getAnswerFromQueryResult {α : Type} (responder : List α → String) (result : List α) :
    String :=
  if result.length = 0 then noDataMessage
  else
    String.intercalate "\n\n"
      ((chunkArray result MAX_ITEMS_PER_CHUNK).map responder)

/-! ## Helper lemmas -/

/-- A statement passes `validateStatement` exactly when it is a SELECT, all
its directly referenced tables are allow-listed, and its WHERE clause passes
the team-id filter. -/
theorem validateStatement_ok_iff (s : SqlStatement) (tids : List String) :
    validateStatement s tids = .ok () ↔
      (∃ f w, s = .select f w) ∧
      (∀ tb ∈ extractTables s, ALLOWED_TABLES.contains tb = true) ∧
      hasValidTeamIdFilter s.whereClause tids = true := by
  cases s with
  | other k =>
      simp [validateStatement]
  | select f w =>
      unfold validateStatement
      rcases hfind : (extractTables (SqlStatement.select f w)).find?
          (fun tbl => !(ALLOWED_TABLES.contains tbl)) with _ | tbl
      · rw [List.find?_eq_none] at hfind
        by_cases hv : hasValidTeamIdFilter w tids = true
        · simp only [hv, Bool.not_true, Bool.false_eq_true, if_false]
          constructor
          · intro _
            refine ⟨⟨f, w, rfl⟩, ?_, hv⟩
            intro tb htb
            have := hfind tb htb
            simpa using this
          · intro _; trivial
        · simp only [SqlStatement.whereClause] at *
          simp [hv]
      · constructor
        · intro h; simp at h
        · rintro ⟨-, hall, -⟩
          exfalso
          have hmem := List.mem_of_find?_eq_some hfind
          have hprop := List.find?_some hfind
          have hprop2 : (!(ALLOWED_TABLES.contains tbl)) = true := hprop
          rw [hall tbl hmem] at hprop2
          simp at hprop2

/-- `validateSqlQuery` succeeds exactly when every statement of the list
passes the per-statement validation. -/
theorem validateSqlQuery_ok_iff (statements : List SqlStatement) (tids : List String) :
    validateSqlQuery statements tids = .ok () ↔
      ∀ s ∈ statements,
        (∃ f w, s = .select f w) ∧
        (∀ tb ∈ extractTables s, ALLOWED_TABLES.contains tb = true) ∧
        hasValidTeamIdFilter s.whereClause tids = true := by
  induction statements with
  | nil => simp [validateSqlQuery]
  | cons s rest ih =>
      unfold validateSqlQuery
      rcases hs : validateStatement s tids with e | u
      · constructor
        · intro h; simp at h
        · intro h
          have := (validateStatement_ok_iff s tids).mpr (h s (by simp))
          rw [hs] at this; simp at this
      · cases u
        simp only [List.mem_cons]
        constructor
        · intro h
          intro x hx
          rcases hx with hx | hx
          · subst hx; exact (validateStatement_ok_iff x tids).mp hs
          · exact (ih.mp h) x hx
        · intro h
          exact ih.mpr (fun x hx => h x (Or.inr hx))

theorem chunkArray_nil {α : Type} (k : Nat) (hk : 0 < k) :
    chunkArray ([] : List α) k = [] := by
  unfold chunkArray
  have : (List.length ([] : List α) + k - 1) / k = 0 := by
    simp only [List.length_nil, Nat.zero_add]
    exact Nat.div_eq_of_lt (by omega)
  rw [this]
  rfl

theorem chunkArray_cons {α : Type} (l : List α) (k : Nat) (hk : 0 < k) (hl : l ≠ []) :
    chunkArray l k = l.take k :: chunkArray (l.drop k) k := by
  have hlen : 0 < l.length := List.length_pos.mpr hl
  unfold chunkArray
  have h1 : (l.length + k - 1) / k = (l.length - 1) / k + 1 := by
    have : l.length + k - 1 = (l.length - 1) + k := by omega
    rw [this, Nat.add_div_right _ hk]
  have h2 : ((l.drop k).length + k - 1) / k = (l.length - 1) / k := by
    rw [List.length_drop]
    rcases le_or_lt k l.length with h | h
    · have : l.length - k + k - 1 = l.length - 1 := by omega
      rw [this]
    · have hz : l.length - k = 0 := by omega
      rw [hz, Nat.div_eq_of_lt (by omega), Nat.div_eq_of_lt (by omega)]
  rw [h1, h2, List.range_succ_eq_map, List.map_cons, List.map_map]
  congr 1
  · simp
  · apply List.map_congr_left
    intro i _
    simp only [Function.comp_apply, List.drop_drop]
    congr 2
    rw [Nat.succ_mul, Nat.add_comm]

theorem chunkArray_flatten_le {α : Type} (k : Nat) (hk : 0 < k) :
    ∀ (n : Nat) (l : List α), l.length ≤ n → (chunkArray l k).flatten = l := by
  intro n
  induction n with
  | zero =>
      intro l h
      have : l = [] := List.length_eq_zero.mp (Nat.le_zero.mp h)
      subst this
      rw [chunkArray_nil k hk]
      rfl
  | succ n ih =>
      intro l h
      by_cases hl : l = []
      · subst hl; rw [chunkArray_nil k hk]; rfl
      · rw [chunkArray_cons l k hk hl]
        have hlen : 0 < l.length := List.length_pos.mpr hl
        have : (l.drop k).length ≤ n := by
          rw [List.length_drop]; omega
        simp only [List.flatten_cons, ih (l.drop k) this]
        exact List.take_append_drop k l

theorem chunkArray_flatten {α : Type} (l : List α) (k : Nat) (hk : 0 < k) :
    (chunkArray l k).flatten = l :=
  chunkArray_flatten_le k hk l.length l le_rfl

theorem chunkArray_length {α : Type} (l : List α) (k : Nat) :
    (chunkArray l k).length = (l.length + k - 1) / k := by
  unfold chunkArray
  rw [List.length_map, List.length_range]

theorem foldl_add_msgTokenCount (l : List ChatMessage) (a : Nat) :
    l.foldl (fun acc m => acc + msgTokenCount m) a = a + (l.map msgTokenCount).sum := by
  induction l generalizing a with
  | nil => simp
  | cons m rest ih =>
      simp only [List.foldl_cons, List.map_cons, List.sum_cons, ih]
      omega

theorem countTokens_eq (l : List ChatMessage) :
    countTokens l = (l.map msgTokenCount).sum + 2 := by
  unfold countTokens
  rw [foldl_add_msgTokenCount]
  omega

/-- The earlier-message loop only ever takes a front segment of the
(reversed) history it walks. -/
theorem trimEarlier_front (M : Nat) :
    ∀ (l : List ChatMessage) (total : Nat), trimEarlier M l total <+: l := by
  intro l
  induction l with
  | nil => intro total; simp [trimEarlier]
  | cons m rest ih =>
      intro total
      rw [trimEarlier]
      by_cases h : total + msgTokenCount m > M
      · simp [h]
      · simp only [h, if_false]
        obtain ⟨t, ht⟩ := ih (total + msgTokenCount m)
        exact ⟨t, by rw [List.cons_append, ht]⟩

/-- The running total the earlier-message loop maintains never exceeds
`max total M`. -/
theorem trimEarlier_sum (M : Nat) :
    ∀ (l : List ChatMessage) (total : Nat),
      ((trimEarlier M l total).map msgTokenCount).sum + total ≤ max total M := by
  intro l
  induction l with
  | nil => intro total; simp [trimEarlier]
  | cons m rest ih =>
      intro total
      rw [trimEarlier]
      by_cases h : total + msgTokenCount m > M
      · simp only [h, if_true]
        simp
      · simp only [h, if_false, List.map_cons, List.sum_cons]
        have hrec := ih (total + msgTokenCount m)
        have hle : total + msgTokenCount m ≤ M := by omega
        have : max (total + msgTokenCount m) M = M := Nat.max_eq_right hle
        rw [this] at hrec
        have : M ≤ max total M := Nat.le_max_right _ _
        omega

/-- With a string body and a budget of at least the 4-token overhead, the
(possibly truncated) last message costs at most the budget. -/
theorem processLastMessage_le (m : ChatMessage) (M : Nat) (t : List Nat)
    (hstr : m.content = .str t) (hM : 4 ≤ M) :
    msgTokenCount (processLastMessage m M) ≤ M := by
  unfold processLastMessage
  rw [hstr]
  by_cases h : 4 + t.length > M
  · simp only [h, if_true, msgTokenCount, contentTokens]
    unfold truncateTextToFitTokens jsSliceToEnd
    have hgt : ¬ ((t.length : Int) ≤ (M : Int) - 4) := by omega
    have hneg : ¬ ((M : Int) - 4 < 0) := by omega
    simp only [hgt, if_false, hneg]
    have htn : ((M : Int) - 4).toNat = M - 4 := by omega
    rw [htn, List.length_take]
    omega
  · simp only [h, if_false]
    rw [msgTokenCount, hstr]
    simp only [contentTokens]
    omega

/-! ## Claim theorems -/

/-- C1: the claim says a model-generated query is executed only after the
validator accepts it, and that a query with no tenant filter and no possible
`team_id` injection is rejected and never executed.  The code does the
opposite: for the generated query `SELECT name FROM tasks` (no WHERE, no
`projects` alias) `getChatInfo` leaves the SQL unchanged — and then executes
it — even though `validateSqlQuery` rejects that very query for missing the
tenant filter. -/
theorem c1_unscoped_query_reaches_execution :
    getChatInfoExecutedSql "SELECT name FROM tasks" "T1" = "SELECT name FROM tasks" ∧
    validateSqlQuery [.select [.tableRef "tasks" none] none] ["T1"]
      = .error "Query must filter results by team_id(s): T1." :=
  ⟨rfl, rfl⟩

/-- C2: the claim (and the spec's `scoped`) requires both disjuncts of an OR
to be independently tenant-scoped, so that
`WHERE team_id = 'T1' OR status = 'x'` is rejected.  The code's
`hasValidTeamIdFilter` recurses with a plain disjunction for AND and OR
alike, so it reports a valid filter for that WHERE clause and the validator
accepts the query. -/
theorem c2_or_bypass_accepted :
    hasValidTeamIdFilter
        (some (.binaryExpr "OR"
          (.binaryExpr "=" (.columnRef "team_id") (.stringLit "T1"))
          (.binaryExpr "=" (.columnRef "status") (.stringLit "x")))) ["T1"] = true ∧
    validateSqlQuery
        [.select [.tableRef "tasks" none]
          (some (.binaryExpr "OR"
            (.binaryExpr "=" (.columnRef "team_id") (.stringLit "T1"))
            (.binaryExpr "=" (.columnRef "status") (.stringLit "x"))))] ["T1"] = .ok () :=
  ⟨rfl, rfl⟩

/-- C3 (counterexample): the claim says any input parsing to more than one
statement is rejected; the validator instead loops over the statement list
and accepts a two-statement list when each statement passes individually. -/
theorem c3_multi_statement_accepted_counterexample :
    validateSqlQuery
        [.select [.tableRef "tasks" none]
           (some (.binaryExpr "=" (.columnRef "team_id") (.stringLit "T1"))),
         .select [.tableRef "projects" none]
           (some (.binaryExpr "=" (.columnRef "team_id") (.stringLit "T1")))] ["T1"]
      = .ok () ∧
    ([.select [.tableRef "tasks" none]
        (some (.binaryExpr "=" (.columnRef "team_id") (.stringLit "T1"))),
      .select [.tableRef "projects" none]
        (some (.binaryExpr "=" (.columnRef "team_id") (.stringLit "T1")))] :
       List SqlStatement).length = 2 :=
  ⟨rfl, rfl⟩

/-- C3 (amended): the validator accepts exactly when **every** parsed
statement is a SELECT whose directly referenced tables are all allow-listed
and whose WHERE clause passes the team-id filter; in particular any non-SELECT
statement anywhere is rejected, but a multi-statement list of passing SELECTs
is accepted rather than rejected. -/
theorem c3_per_statement_validation (statements : List SqlStatement) (teamIds : List String) :
    validateSqlQuery statements teamIds = .ok () ↔
      ∀ s ∈ statements,
        (∃ f w, s = .select f w) ∧
        (∀ tb ∈ extractTables s, ALLOWED_TABLES.contains tb = true) ∧
        hasValidTeamIdFilter s.whereClause teamIds = true :=
  validateSqlQuery_ok_iff statements teamIds

theorem c3_per_statement_validation_witness :
    validateSqlQuery
        [.select [.tableRef "tasks" none]
          (some (.binaryExpr "=" (.columnRef "team_id") (.stringLit "T1")))] ["T1"]
      = .ok () := by
  apply (c3_per_statement_validation _ _).mpr
  intro s hs
  simp only [List.mem_singleton] at hs
  subst hs
  exact ⟨⟨_, _, rfl⟩, by decide, rfl⟩

/-- C4 (counterexample): the claim says every table referenced anywhere in
the FROM clause, including subqueries in FROM, must be allow-listed.  The
code's `extractTables` never descends into a subquery entry, so a query whose
FROM is a subquery over the non-allow-listed `secret_table` is accepted. -/
theorem c4_subquery_table_unchecked_counterexample :
    validateSqlQuery
        [.select [.subquery (.select [.tableRef "secret_table" none] none)]
          (some (.binaryExpr "=" (.columnRef "team_id") (.stringLit "T1")))] ["T1"]
      = .ok () ∧
    ALLOWED_TABLES.contains "secret_table" = false :=
  ⟨rfl, by decide⟩

/-- C4 (amended): every table *directly referenced as a FROM-list entry*
(which is where joined tables appear) of every statement of an accepted query
is allow-listed, and the first directly referenced non-member table causes
rejection with an error naming that table; tables referenced only inside
FROM-clause subqueries are not collected and not checked. -/
theorem c4_direct_tables_allowlisted (statements : List SqlStatement) (teamIds : List String) :
    (validateSqlQuery statements teamIds = .ok () →
       ∀ s ∈ statements, ∀ tb ∈ extractTables s, ALLOWED_TABLES.contains tb = true) ∧
    (∀ f w tbl,
       (extractTables (SqlStatement.select f w)).find?
           (fun tb => !(ALLOWED_TABLES.contains tb)) = some tbl →
       validateStatement (.select f w) teamIds
         = .error ("Access to table " ++ "'" ++ tbl ++ "'" ++ " is not allowed.")) := by
  constructor
  · intro h s hs tb htb
    exact (((validateSqlQuery_ok_iff _ _).mp h) s hs).2.1 tb htb
  · intro f w tbl hfind
    unfold validateStatement
    rw [hfind]

theorem c4_direct_tables_allowlisted_witness :
    validateStatement (.select [.tableRef "evil_table" none] none) ["T1"]
      = .error "Access to table 'evil_table' is not allowed." := by
  have h := (c4_direct_tables_allowlisted [] ["T1"]).2
    [.tableRef "evil_table" none] none "evil_table" (by rfl)
  exact h.trans (by rfl)

/-- C5 (counterexample): the claim says the trimmed list's counted token
cost never exceeds the budget.  With budget 10 and a single 10-token message,
the message is truncated to 6 tokens so that its own cost is exactly the
budget (4 + 6), but the service's counter adds 2 priming tokens on top:
the counted cost of the trimmed list is 12 > 10. -/
theorem c5_budget_exceeded_counterexample :
    countTokens
        (trimMessagesToFitTokenLimit [⟨"user", .str [0, 1, 2, 3, 4, 5, 6, 7, 8, 9]⟩] 10) = 12 ∧
    10 < 12 :=
  ⟨rfl, by omega⟩

/-- C5 (amended): for a non-empty message list whose most recent message has
a plain string body, and a budget of at least the 4-token message overhead,
the trimmed list always ends with the (possibly token-truncated) most recent
message, the retained earlier messages form an order-preserving contiguous
tail of the earlier history, and the counted token cost of the trimmed list
exceeds the budget by at most the 2 priming tokens (it can reach budget + 2,
so "never exceeds the budget" does not hold verbatim). -/
theorem c5_trim_keeps_last_within_budget (messages : List ChatMessage) (maxTokens : Nat)
    (last : ChatMessage) (t : List Nat)
    (hlast : messages.getLast? = some last) (hstr : last.content = .str t)
    (hbudget : 4 ≤ maxTokens) :
    (∃ earlier, earlier <:+ messages.dropLast ∧
        trimMessagesToFitTokenLimit messages maxTokens
          = earlier ++ [processLastMessage last maxTokens]) ∧
    countTokens (trimMessagesToFitTokenLimit messages maxTokens) ≤ maxTokens + 2 := by
  have hunfold :
      trimMessagesToFitTokenLimit messages maxTokens
        = ((processLastMessage last maxTokens)
            :: trimEarlier maxTokens messages.dropLast.reverse
                 (2 + msgTokenCount (processLastMessage last maxTokens))).reverse := by
    unfold trimMessagesToFitTokenLimit
    rw [hlast]
  set last2 := processLastMessage last maxTokens with hlast2
  set total := 2 + msgTokenCount last2 with htotal
  set earlier0 := trimEarlier maxTokens messages.dropLast.reverse total with hearlier0
  constructor
  · refine ⟨earlier0.reverse, ?_, ?_⟩
    · have h := trimEarlier_front maxTokens messages.dropLast.reverse total
      rw [← hearlier0] at h
      have h2 : earlier0.reverse <:+ messages.dropLast.reverse.reverse := by
        rw [List.reverse_suffix]
        exact h
      rwa [List.reverse_reverse] at h2
    · rw [hunfold, List.reverse_cons]
  · rw [hunfold, countTokens_eq, List.reverse_cons, List.map_append, List.sum_append]
    have hsum := trimEarlier_sum maxTokens messages.dropLast.reverse total
    rw [← hearlier0] at hsum
    have hmaps : ((earlier0.reverse).map msgTokenCount).sum = (earlier0.map msgTokenCount).sum := by
      rw [List.map_reverse, List.sum_reverse]
    have hlastle : msgTokenCount last2 ≤ maxTokens :=
      processLastMessage_le last maxTokens t hstr hbudget
    have hmax : max total maxTokens ≤ maxTokens + 2 := by
      apply max_le <;> omega
    rw [hmaps]
    simp only [List.map_cons, List.map_nil, List.sum_cons, List.sum_nil]
    omega

theorem c5_trim_keeps_last_within_budget_witness :
    countTokens (trimMessagesToFitTokenLimit [⟨"user", .str [7]⟩] 100) ≤ 102 :=
  (c5_trim_keeps_last_within_budget [⟨"user", .str [7]⟩] 100 ⟨"user", .str [7]⟩ [7]
    rfl rfl (by omega)).2

/-- C6 (counterexample): the claim says failure text never contains table or
column names or internal identifiers.  When validation rejects the query over
`secret_table`, the summary `getQueryData` returns is the template with the
validator's raw message interpolated — and that message names the offending
table (the substring `secret_table` occurs in the outbound summary). -/
theorem c6_summary_leaks_table_name_counterexample :
    getQueryDataValidationSummary
        [.select [.tableRef "secret_table" none]
          (some (.binaryExpr "=" (.columnRef "team_id") (.stringLit "T1")))] "T1"
      = some "Query validation failed: Access to table 'secret_table' is not allowed." ∧
    testPat [.lit "secret_table".toList false]
        "Query validation failed: Access to table 'secret_table' is not allowed." = true :=
  ⟨rfl, rfl⟩

/-- C6 (amended): on a validation rejection, `getQueryData` returns the
template `Query validation failed: ` with the validator's raw error message
appended verbatim; in particular the missing-tenant-filter rejection for a
single team id embeds that team id in the outbound summary (so validation
failure text does leak table names and the caller's tenant id; the
database-failure and parse-failure paths do use fixed templates). -/
theorem c6_rejection_summary_embeds_error (statements : List SqlStatement) (teamId m : String) :
    (validateSqlQuery statements [teamId] = .error m →
       getQueryDataValidationSummary statements teamId
         = some ("Query validation failed: " ++ m)) ∧
    (∀ f w,
       ((extractTables (SqlStatement.select f w)).all
          fun tb => ALLOWED_TABLES.contains tb) = true →
       hasValidTeamIdFilter w [teamId] = false →
       validateSqlQuery [SqlStatement.select f w] [teamId]
         = .error ("Query must filter results by team_id(s): " ++ teamId ++ ".")) := by
  constructor
  · intro h
    unfold getQueryDataValidationSummary
    rw [h]
  · intro f w hall hv
    have hfind :
        (extractTables (SqlStatement.select f w)).find?
            (fun tb => !(ALLOWED_TABLES.contains tb)) = none := by
      rw [List.find?_eq_none]
      intro x hx
      have := (List.all_eq_true.mp hall) x hx
      simp only [this, Bool.not_true, Bool.false_eq_true, not_false_eq_true]
    simp only [validateSqlQuery, validateStatement, hfind, hv]
    rfl

theorem c6_rejection_summary_embeds_error_witness :
    getQueryDataValidationSummary
        [.select [.tableRef "tasks" none] none] "T1"
      = some "Query validation failed: Query must filter results by team_id(s): T1." := by
  have h := (c6_rejection_summary_embeds_error
    [.select [.tableRef "tasks" none] none] "T1"
    "Query must filter results by team_id(s): T1.").1 (by rfl)
  exact h.trans (by rfl)

/-- C7 (counterexample): the claim says transient invocation failures are
retried with backoff and only surface after the retries are exhausted.  With
a provider that fails once (rate limited) and would succeed on the very next
attempt, `getOpenAiResponse` nevertheless returns the provider error — no
second attempt is ever made. -/
theorem c7_no_retry_counterexample :
    getOpenAiResponse
        (fun k => if k = 0 then .failure "rate limited" else .success "ok")
      = .error "Failed to get response from OpenAI." ∧
    (fun k => if k = 0 then AttemptResult.failure "rate limited"
              else AttemptResult.success "ok") 1 = .success "ok" :=
  ⟨rfl, rfl⟩

/-- C7 (amended): the gateway performs exactly one invocation attempt, with
no retry and no backoff: the outcome of `getOpenAiResponse` and of
`createChatCompletion` depends only on the first attempt, and a first-attempt
failure immediately surfaces (as the fixed generic provider error for
`getOpenAiResponse`). -/
theorem c7_single_attempt_no_retry (attempts attempts2 : Nat → AttemptResult)
    (h : attempts 0 = attempts2 0) :
    getOpenAiResponse attempts = getOpenAiResponse attempts2 ∧
    (∀ messages maxResponseTokens,
        createChatCompletion attempts messages maxResponseTokens
          = createChatCompletion attempts2 messages maxResponseTokens) ∧
    (∀ e, attempts 0 = .failure e →
        getOpenAiResponse attempts = .error "Failed to get response from OpenAI.") := by
  refine ⟨?_, ?_, ?_⟩
  · unfold getOpenAiResponse
    rw [h]
  · intro messages maxResponseTokens
    unfold createChatCompletion
    rw [h]
  · intro e he
    unfold getOpenAiResponse
    rw [he]

theorem c7_single_attempt_no_retry_witness :
    getOpenAiResponse (fun _ => .failure "timeout")
      = .error "Failed to get response from OpenAI." :=
  (c7_single_attempt_no_retry (fun _ => .failure "timeout") (fun _ => .failure "timeout")
    rfl).2.2 "timeout" rfl

/-- C8: for a non-empty result list, answer synthesis makes one model call
per chunk of 10 rows — exactly ⌈n/10⌉ chunks — the chunks concatenate back to
the original row list in order, and the per-chunk responses are joined in
that same chunk order. -/
theorem c8_chunked_synthesis (α : Type) (result : List α) (hne : result ≠ [])
    (responder : List α → String) :
    (chunkArray result MAX_ITEMS_PER_CHUNK).length = (result.length + 9) / 10 ∧
    (chunkArray result MAX_ITEMS_PER_CHUNK).flatten = result ∧
    getAnswerFromQueryResult responder result
      = String.intercalate "\n\n" ((chunkArray result MAX_ITEMS_PER_CHUNK).map responder) := by
  refine ⟨?_, ?_, ?_⟩
  · rw [chunkArray_length]
    unfold MAX_ITEMS_PER_CHUNK
    omega
  · exact chunkArray_flatten result MAX_ITEMS_PER_CHUNK (by decide)
  · unfold getAnswerFromQueryResult
    rw [if_neg]
    simpa [List.length_eq_zero] using hne

theorem c8_chunked_synthesis_witness :
    (chunkArray (List.range 25) MAX_ITEMS_PER_CHUNK).length = 3 ∧
    (chunkArray (List.range 25) MAX_ITEMS_PER_CHUNK).flatten = List.range 25 := by
  have h := c8_chunked_synthesis Nat (List.range 25) (by simp) (fun _ => "")
  refine ⟨?_, h.2.1⟩
  rw [h.1, List.length_range]

/-- C9: the suggestion generator always returns exactly two strings: the two
parsed follow-up questions (trimmed capture groups) when the model reply
matches the `1. ... 2. ...` pattern, and the fixed fallback pair
(`Can you elaborate?`, `What else should I know about this?`) when the reply
does not match or the provider call fails. -/
theorem generateFollowUpSuggestions_ok_eq (content : String) :
    generateFollowUpSuggestions (.ok content)
      = match regexSearch suggestionsPat content with
        | some (_, _, [g1, g2]) => [jsTrim (String.mk g1), jsTrim (String.mk g2)]
        | _ => followUpFallback := rfl

theorem c9_exactly_two_suggestions (reply : Except String String) :
    (generateFollowUpSuggestions reply).length = 2 ∧
    (∀ e, reply = .error e → generateFollowUpSuggestions reply = followUpFallback) ∧
    (∀ content, reply = .ok content → regexSearch suggestionsPat content = none →
        generateFollowUpSuggestions reply = followUpFallback) ∧
    (∀ content s n g1 g2, reply = .ok content →
        regexSearch suggestionsPat content = some (s, n, [g1, g2]) →
        generateFollowUpSuggestions reply
          = [jsTrim (String.mk g1), jsTrim (String.mk g2)]) := by
  refine ⟨?_, ?_, ?_, ?_⟩
  · cases reply with
    | error e => rfl
    | ok content =>
        rw [generateFollowUpSuggestions_ok_eq]
        rcases h : regexSearch suggestionsPat content with _ | ⟨s, n, caps⟩
        · rfl
        · rcases caps with _ | ⟨g1, _ | ⟨g2, _ | ⟨g3, rest⟩⟩⟩ <;> rfl
  · intro e he; subst he; rfl
  · intro content he h
    subst he
    rw [generateFollowUpSuggestions_ok_eq, h]
  · intro content s n g1 g2 he h
    subst he
    rw [generateFollowUpSuggestions_ok_eq, h]

theorem c9_exactly_two_suggestions_witness :
    generateFollowUpSuggestions (Except.ok "1. A? 2. B?") = ["A?", "B?"] ∧
    generateFollowUpSuggestions (Except.error "boom") = followUpFallback := by
  refine ⟨?_, (c9_exactly_two_suggestions (Except.error "boom")).2.1 "boom" rfl⟩
  have h := (c9_exactly_two_suggestions (Except.ok "1. A? 2. B?")).2.2.2
    "1. A? 2. B?" 0 11 "A?".toList "B?".toList rfl (by rfl)
  exact h.trans (by rfl)

theorem classifyUserIntent_ok_some_eq (m : String) :
    classifyUserIntent (.ok (some m))
      = if (["data_query", "chit_chat", "help", "other"] : List String).contains
            (jsToLower (jsTrim m))
        then jsToLower (jsTrim m) else "other" := rfl

/-- C10: the intent classifier only ever returns one of
`data_query`, `chit_chat`, `help`, `other` (the embedding is a total
function, modelling that the source catches every provider error); it returns
`other` both when the model's reply is not one of the four strings and when
the call fails; and in the chat turn any non-`data_query` intent produces the
canned early response, never reaching SQL generation. -/
theorem c10_intent_classifier_closed (completionContent : Except String (Option String)) :
    classifyUserIntent completionContent ∈ ["data_query", "chit_chat", "help", "other"] ∧
    (∀ e, completionContent = .error e → classifyUserIntent completionContent = "other") ∧
    (∀ mc, completionContent = .ok (some mc) →
        jsToLower (jsTrim mc) ∉ (["data_query", "chit_chat", "help", "other"] : List String) →
        classifyUserIntent completionContent = "other") ∧
    (∀ intent, getChatInfoIntentStep intent = .proceedToSql ↔ intent = "data_query") := by
  refine ⟨?_, ?_, ?_, ?_⟩
  · cases completionContent with
    | error e => simp [classifyUserIntent]
    | ok mc =>
        cases mc with
        | none => simp [classifyUserIntent]
        | some m =>
            rw [classifyUserIntent_ok_some_eq]
            by_cases h :
                (["data_query", "chit_chat", "help", "other"] : List String).contains
                  (jsToLower (jsTrim m)) = true
            · rw [h]
              simpa using List.mem_of_elem_eq_true h
            · rw [Bool.not_eq_true] at h
              rw [h]
              simp
  · intro e he; subst he; rfl
  · intro mc he hnot
    subst he
    rw [classifyUserIntent_ok_some_eq]
    by_cases h :
        (["data_query", "chit_chat", "help", "other"] : List String).contains
          (jsToLower (jsTrim mc)) = true
    · exact absurd (List.mem_of_elem_eq_true h) hnot
    · rw [Bool.not_eq_true] at h
      rw [h]
      simp
  · intro intent
    by_cases h : intent = "data_query"
    · subst h; simp [getChatInfoIntentStep]
    · simp [getChatInfoIntentStep, h]

theorem c10_intent_classifier_closed_witness :
    classifyUserIntent (Except.error "provider down") = "other" ∧
    classifyUserIntent (Except.ok (some "banana")) = "other" ∧
    (getChatInfoIntentStep "chit_chat" = ChatTurnOutcome.proceedToSql
      ↔ ("chit_chat" : String) = "data_query") := by
  refine ⟨(c10_intent_classifier_closed (Except.error "provider down")).2.1 "provider down" rfl,
    (c10_intent_classifier_closed (Except.ok (some "banana"))).2.2.1 "banana" rfl (by decide),
    (c10_intent_classifier_closed (Except.error "x")).2.2.2 "chit_chat"⟩

end Worklenz
